import Mathlib

/-!
Verification of the HyperSim SDK core (Rust sources under `sdks/rust/src`):
the response caches of the HyperEVM/HyperCore clients, the plugin hook
pipeline, and the WebSocket connection manager.

Shallow embedding conventions:
* `HashMap<K, V>` becomes an association list `List (K × V)` with unique
  keys; `insert` replaces an existing binding, `get` is `lookupEntry`.
* `std::time::Instant` and timestamps become `Nat` values passed
  explicitly as a `now` argument; `Duration::from_secs ttl` becomes `+ ttl`.
* `async fn` bodies are straight-line state transformers: `tokio::time::sleep`
  and spawned background tasks do not modify the modelled state and are
  dropped; each Rust method taking `&self`/`&mut self` becomes a function
  from the relevant state to (new state, `Except` result).
* `serde_json` round-trips of in-memory values never fail for the value
  shapes the SDK stores (JSON maps of JSON values, derived `Serialize`
  structs), so serialization is modelled as the identity.
-/

set_option linter.unusedVariables false

namespace HyperSim

/-- Error enum of `error.rs` (`HyperSimError`). Payloads are the message
strings and optional context fields; the `source` box of `Network` (a dynamic
trait object) is dropped. The Rust helper constructors (`HyperSimError::plugin`,
`HyperSimError::websocket`, ...) set the optional context field to `None`,
which we write as `none` at use sites. -/
inductive HyperSimError where
  | configuration (message : String)
  | network (message : String)
  | simulation (message : String) (tx_hash : Option String)
  | webSocket (message : String) (url : Option String)
  | aiAnalysis (message : String)
  | plugin (message : String) (plugin_name : Option String)
  | validation (message : String) (field : Option String)
  | serializationErr (message : String)
  | authentication (message : String)
  | rateLimit (message : String) (retry_after : Option Nat)
  | timeoutErr (duration_ms : Nat)
  | abi (message : String)
  | connectionPool (message : String)
  | internalErr (message : String)
  | unknownErr (message : String)
deriving DecidableEq

/-- Discriminator for the `Plugin` error class (used by claim C7: "a
Plugin-class error"). -/
def HyperSimError.isPluginClass : HyperSimError → Bool
  | .plugin _ _ => true
  | _ => false

/-- `HashMap::get`: first binding of the key in the association list. -/
def lookupEntry {K V : Type} [DecidableEq K] : List (K × V) → K → Option V
  | [], _ => none
  | (k', v) :: rest, k => if k' = k then some v else lookupEntry rest k

/-- `HashMap::insert`: bind `k` to `v`, replacing any previous binding.
The new binding is placed at the head; a `HashMap` is unordered, so only
the key-to-value mapping and the entry count are significant. -/
def insertEntry {K V : Type} [DecidableEq K] (m : List (K × V)) (k : K) (v : V) :
    List (K × V) :=
  (k, v) :: m.filter (fun kv => kv.1 ≠ k)

theorem lookupEntry_insert_self {K V : Type} [DecidableEq K]
    (m : List (K × V)) (k : K) (v : V) :
    lookupEntry (insertEntry m k v) k = some v := by
  simp [insertEntry, lookupEntry]

theorem lookupEntry_some_mem {K V : Type} [DecidableEq K]
    {m : List (K × V)} {k : K} {v : V}
    (h : lookupEntry m k = some v) : (k, v) ∈ m := by
  induction m with
  | nil => simp [lookupEntry] at h
  | cons hd tl ih =>
    rw [lookupEntry] at h
    by_cases hk : hd.1 = k
    · simp [hk] at h
      cases hd
      simp_all
    · simp [hk] at h
      exact List.mem_cons_of_mem _ (ih h)

/-! ## Response caches (`clients/hyperevm.rs`, `clients/hypercore.rs`)

`CacheEntry` (hyperevm) and `CachedData` (hypercore) have the same shape:
a stored payload plus an absolute expiry instant `expires_at = now + ttl`.
The payload type (`serde_json::Value` holding a serialized
`SimulationResult`, resp. `CrossLayerData`) is a type parameter `V`, and
the key type (`String` fingerprints from `generate_cache_key`) is a type
parameter `K`; serialization round-trips are the identity. -/

/-- Cache entry: `CacheEntry { data, expires_at }` of `clients/hyperevm.rs`
(and, with the same field layout, `CachedData` of `clients/hypercore.rs`). -/
structure CacheEntry (V : Type) where
  data : V
  expires_at : Nat
deriving DecidableEq

/-- `HyperEVMClient::get_cached_result`: look the key up and return the
stored payload only while `entry.expires_at > now`; the successful
deserialization branch is the identity on the stored value. -/
def get_cached_result {K V : Type} [DecidableEq K]
    (cache : List (K × CacheEntry V)) (cache_key : K) (now : Nat) : Option V :=
  match lookupEntry cache cache_key with
  | some entry => if entry.expires_at > now then some entry.data else none
  | none => none

/-- `HyperCoreClient::get_cached_data`: same guard, but returns the whole
(cloned) entry. -/
def get_cached_data {K V : Type} [DecidableEq K]
    (cache : List (K × CacheEntry V)) (cache_key : K) (now : Nat) :
    Option (CacheEntry V) :=
  match lookupEntry cache cache_key with
  | some entry => if entry.expires_at > now then some entry else none
  | none => none

/-- `HyperEVMClient::cache_result`: insert the freshly serialized result with
`expires_at = now + cache_ttl`, then, if the map now holds more than 1000
entries (hard-coded bound in the source), sweep away every entry whose
`expires_at` is not `> now`. -/
def cache_result {K V : Type} [DecidableEq K]
    (cache : List (K × CacheEntry V)) (cache_key : K) (result : V)
    (now cache_ttl : Nat) : List (K × CacheEntry V) :=
  let entry : CacheEntry V := { data := result, expires_at := now + cache_ttl }
  let cache1 := insertEntry cache cache_key entry
  if cache1.length > 1000 then
    cache1.filter (fun kv => kv.2.expires_at > now)
  else
    cache1

/-- `HyperCoreClient::cache_data`: like `cache_result` but guarded by the
`cache_enabled` flag and with the hard-coded bound 500. -/
def cache_data {K V : Type} [DecidableEq K]
    (cache_enabled : Bool) (cache : List (K × CacheEntry V)) (cache_key : K)
    (data : V) (now cache_ttl : Nat) : List (K × CacheEntry V) :=
  if cache_enabled then
    let entry : CacheEntry V := { data := data, expires_at := now + cache_ttl }
    let cache1 := insertEntry cache cache_key entry
    if cache1.length > 500 then
      cache1.filter (fun kv => kv.2.expires_at > now)
    else
      cache1
  else
    cache

/-! ## Plugin system (`plugins/system.rs`, `plugins/traits.rs`, `plugins/config.rs`)

A loaded plugin is stored as `Box<dyn Plugin>`; the hook pipeline only ever
calls its lifecycle callbacks, so the trait-object view is a record of hook
functions (`PluginObj`). Plugin construction (`create_plugin`) resolves a
closed registry of built-in kinds, which we embed concretely
(`BuiltinPlugin`). Hook side effects that are pure logging/metrics do not
change any state the pipeline observes. -/

/-- JSON values, restricted to the shapes the modelled code inspects:
`LoggingPlugin::initialize` only asks for a boolean field. -/
inductive JsonValue where
  | bool (b : Bool)
  | str (s : String)
  | num (n : Int)
  | null
deriving DecidableEq

/-- Fields elided relative to the source (`gas_limit`, fee fields, `nonce`,
`tx_type`, `chain_id`): the modelled operations treat requests opaquely, only
`generate_cache_key` touches the four kept fields. The Rust fields `from`/`to`
become `from_addr`/`to_addr` (reserved words in Lean). -/
structure TransactionRequest where
  from_addr : String
  to_addr : Option String
  value : Option String
  data : Option String

/-- Fields elided relative to the source (`return_data`, trace, state
changes, ...): hooks treat results opaquely. -/
structure SimulationResult where
  success : Bool
  gas_used : String

/-- Trait-object view of `dyn Plugin`: the lifecycle callbacks invoked by
the `PluginSystem` executors. (`health_check`/`shutdown`/`on_request` are
not needed by the claims under verification.) -/
structure PluginObj where
  before_simulation : TransactionRequest → Except HyperSimError Unit
  after_simulation : SimulationResult → Except HyperSimError Unit
  on_error : HyperSimError → Except HyperSimError Unit

/-- The closed built-in registry of `plugins/traits.rs`:
`LoggingPlugin { enabled }` and `MetricsPlugin { request_count, error_count }`
(the `name` fields are the constant strings "logging"/"metrics"). -/
inductive BuiltinPlugin where
  | logging (enabled : Bool)
  | metrics (request_count error_count : Nat)
deriving DecidableEq

/-- `Plugin::initialize` of the built-in plugins. `LoggingPlugin` reads
`config.get("enabled").and_then(as_bool).unwrap_or(true)` into its state and
returns `Ok`; `MetricsPlugin` ignores the config and returns `Ok`. -/
def BuiltinPlugin.initConfig : BuiltinPlugin → List (String × JsonValue) →
    Except HyperSimError BuiltinPlugin
  | .logging _, config =>
      .ok (.logging (match lookupEntry config "enabled" with
        | some (.bool b) => b
        | _ => true))
  | .metrics rc ec, _ => .ok (.metrics rc ec)

/-- The built-in plugins as trait objects. Their hooks log or bump internal
atomic counters and always return `Ok(())` (see `plugins/traits.rs`); the
default trait bodies are also `Ok(())`. -/
def BuiltinPlugin.toObj : BuiltinPlugin → PluginObj
  | .logging _ =>
      { before_simulation := fun _ => .ok ()
        after_simulation := fun _ => .ok ()
        on_error := fun _ => .ok () }
  | .metrics _ _ =>
      { before_simulation := fun _ => .ok ()
        after_simulation := fun _ => .ok ()
        on_error := fun _ => .ok () }

/-- `PluginConfig` of `plugins/config.rs`. -/
structure PluginConfig where
  name : String
  version : Option String
  enabled : Bool
  config : List (String × JsonValue)
  priority : Nat

/-- Mutable state of `PluginSystem`: the plugin map and the execution-order
list (the `initialized` flag is set once at construction and never read). -/
structure PluginSystemState where
  plugins : List (String × PluginObj)
  execution_order : List String

/-- `PluginSystem::create_plugin`: resolve the closed registry by name;
any other name is a `Plugin`-class "Unknown plugin" error. -/
def create_plugin (name : String) : Except HyperSimError BuiltinPlugin :=
  match name with
  | "logging" => .ok (.logging true)
  | "metrics" => .ok (.metrics 0 0)
  | _ => .error (.plugin ("Unknown plugin: " ++ name) none)

/-- `PluginSystem::update_execution_order`, verbatim from the source: drop
a stale occurrence of the name, then compute the insertion position with
`iter().position(|name| false).unwrap_or(len)` — the closure is the
source's literal `false // For now, just append` — and insert there. -/
def update_execution_order (order : List String) (plugin_name : String)
    (priority : Nat) : List String :=
  let order1 := order.filter (fun name => name ≠ plugin_name)
  let position := (order1.findIdx? (fun name => false)).getD order1.length
  order1.insertIdx position plugin_name

/-- `PluginSystem::load_plugin`: skip disabled configs; otherwise construct,
initialize with the config (serialization of the config map cannot fail and
is the identity), store the plugin, and update the execution order. Any
failure before the store leaves the state untouched. -/
def load_plugin (st : PluginSystemState) (config : PluginConfig) :
    PluginSystemState × Except HyperSimError Unit :=
  if ¬ config.enabled then
    (st, .ok ())
  else
    match create_plugin config.name with
    | .error e => (st, .error e)
    | .ok plugin0 =>
      match plugin0.initConfig config.config with
      | .error e => (st, .error e)
      | .ok plugin =>
        let plugins := insertEntry st.plugins config.name plugin.toObj
        let execution_order :=
          update_execution_order st.execution_order config.name config.priority
        ({ plugins := plugins, execution_order := execution_order }, .ok ())

/-- Shared loop shape of the three hook executors: walk the execution order,
look each name up in the plugin map, invoke the hook on those present, and
ignore (log-only) each hook's outcome. The returned list is the invocation
log — one `(name, outcome)` pair per callback actually invoked, in order —
and the second component is the pipeline call's own result. -/
def run_hooks (order : List String) (plugins : List (String × PluginObj))
    (hook : PluginObj → Except HyperSimError Unit) :
    List (String × Except HyperSimError Unit) × Except HyperSimError Unit :=
  match order with
  | [] => ([], .ok ())
  | plugin_name :: rest =>
    match lookupEntry plugins plugin_name with
    | some p =>
      let outcome := hook p
      let r := run_hooks rest plugins hook
      ((plugin_name, outcome) :: r.1, r.2)
    | none => run_hooks rest plugins hook

/-- `PluginSystem::execute_before_simulation`. -/
def execute_before_simulation (st : PluginSystemState)
    (request : TransactionRequest) :
    List (String × Except HyperSimError Unit) × Except HyperSimError Unit :=
  run_hooks st.execution_order st.plugins (fun p => p.before_simulation request)

/-- `PluginSystem::execute_after_simulation` (hook mutation of the result is
not observed by any claim; the outcome alone is logged). -/
def execute_after_simulation (st : PluginSystemState)
    (result : SimulationResult) :
    List (String × Except HyperSimError Unit) × Except HyperSimError Unit :=
  run_hooks st.execution_order st.plugins (fun p => p.after_simulation result)

/-- `PluginSystem::execute_on_error`. -/
def execute_on_error (st : PluginSystemState) (e : HyperSimError) :
    List (String × Except HyperSimError Unit) × Except HyperSimError Unit :=
  run_hooks st.execution_order st.plugins (fun p => p.on_error e)

/-- Folding `load_plugin`'s execution-order update over a load sequence of
`(name, priority)` pairs, starting from an empty order: the execution order
the code produces for that load sequence. -/
def codeExecutionOrder (loads : List (String × Nat)) : List String :=
  loads.foldl (fun order np => update_execution_order order np.1 np.2) []

/-- Modelled from the spec: "the execution order is a stable sort by
ascending priority; ties broken by load order". Each newly loaded plugin is
inserted after every plugin of priority ≤ its own. -/
def specInsertByPriority (x : String × Nat) :
    List (String × Nat) → List (String × Nat)
  | [] => [x]
  | y :: ys => if y.2 ≤ x.2 then y :: specInsertByPriority x ys else x :: y :: ys

/-- Modelled from the spec: the execution order required by the spec for a
given load sequence — stable insertion by ascending priority. -/
def specExecutionOrder (loads : List (String × Nat)) : List String :=
  (loads.foldl (fun acc x => specInsertByPriority x acc) []).map Prod.fst

/-! ## WebSocket client (`clients/websocket.rs`, `types/websocket.rs`)

`WebSocketClient` state splits into the lock-guarded `ClientState` record
and the subscription registry `HashMap<String, WSSubscription>`. The mock
transport (`send_message`, the simulated connection establishment) always
succeeds, exactly as in the source; sleeps and spawned background tasks are
dropped. The reconnection delay
`(reconnect_backoff.powi(attempts) * 1000.0) as u64` is an `f64`
computation that only feeds the dropped sleep, so it does not appear in the
modelled state. -/

/-- `ConnectionState` of `types/websocket.rs`. -/
inductive ConnectionState where
  | Disconnected
  | Connecting
  | Connected
  | Reconnecting
  | Error
deriving DecidableEq

/-- `ConnectionState::is_connected`: `matches!(self, Connected)`. -/
def ConnectionState.is_connected : ConnectionState → Bool
  | .Connected => true
  | _ => false

/-- `ConnectionState::is_connecting`: `matches!(self, Connecting | Reconnecting)`. -/
def ConnectionState.is_connecting : ConnectionState → Bool
  | .Connecting => true
  | .Reconnecting => true
  | _ => false

/-- The lock-guarded `ClientState` of `clients/websocket.rs`; `Instant`
becomes `Nat`. -/
structure ClientState where
  connection_state : ConnectionState
  last_ping : Option Nat
  reconnect_attempts : Nat
  message_id_counter : Nat
deriving DecidableEq

/-- Configuration fields of `WebSocketClientConfig` consumed by the modelled
transitions. Elided fields (endpoint, timeouts, `ping_interval`,
`reconnect_backoff : f64`, `auto_reconnect`, buffer/compression/headers)
configure the dropped transport, timing, and task layer only. -/
structure WebSocketClientConfig where
  max_reconnect_attempts : Nat

/-- `SubscriptionType` of `types/websocket.rs`. -/
inductive SubscriptionType where
  | NewHeads
  | NewTransactions
  | PendingTransactions
  | Logs
  | NewBlocks
  | SimulationResults
  | GasPrices
  | NetworkStatus
deriving DecidableEq

/-- `WSSubscription`, polymorphic in the params payload `P` (the source's
`SubscriptionParams` filter record, carried opaquely). -/
structure WSSubscription (P : Type) where
  id : String
  subscription_type : SubscriptionType
  params : P
  active : Bool
  created_at : Nat

/-- The subscription registry `HashMap<String, WSSubscription>`. -/
def SubscriptionRegistry (P : Type) := List (String × WSSubscription P)

/-- `WebSocketClient::send_message`: the mock transport logs, sleeps and
returns `Ok(())` unconditionally. -/
def send_message : Except HyperSimError Unit := .ok ()

/-- `WebSocketClient::generate_subscription_id`: bump `message_id_counter`
and render the new value. The source renders it as `format!("sub_{:08x}", n)`
(zero-padded hex); the model renders decimal — both are injective in the
counter, which is the only property relied on. -/
def generate_subscription_id (st : ClientState) : ClientState × String :=
  let st1 := { st with message_id_counter := st.message_id_counter + 1 }
  (st1, "sub_" ++ toString st1.message_id_counter)

/-- `WebSocketClient::connect`: set `Connecting`, (mock) establish the
connection, then set `Connected`, zero `reconnect_attempts` and record the
ping instant. Background tasks are spawned and dropped from the model. -/
def connect (st : ClientState) (now : Nat) :
    ClientState × Except HyperSimError Unit :=
  let st1 := { st with connection_state := .Connecting }
  let st2 := { st1 with
    connection_state := .Connected
    reconnect_attempts := 0
    last_ping := some now }
  (st2, .ok ())

/-- `WebSocketClient::disconnect`: set `Disconnected` and clear the whole
subscription registry, from any state, never failing. -/
def disconnect {P : Type} (st : ClientState) (subs : SubscriptionRegistry P) :
    (ClientState × SubscriptionRegistry P) × Except HyperSimError Unit :=
  (({ st with connection_state := .Disconnected }, []), .ok ())

/-- `WebSocketClient::subscribe`: guard on `is_connected`, generate the id,
build and (mock-)send the subscribe envelope, store the subscription as
active, and return it. -/
def subscribe {P : Type} (st : ClientState) (subs : SubscriptionRegistry P)
    (subscription_type : SubscriptionType) (params : P) (now : Nat) :
    (ClientState × SubscriptionRegistry P) ×
      Except HyperSimError (WSSubscription P) :=
  if ¬ st.connection_state.is_connected then
    ((st, subs), .error (.webSocket "Not connected to WebSocket" none))
  else
    let (st1, subscription_id) := generate_subscription_id st
    let subscription : WSSubscription P :=
      { id := subscription_id
        subscription_type := subscription_type
        params := params
        active := true
        created_at := now }
    match send_message with
    | .error e => ((st1, subs), .error e)
    | .ok _ =>
      ((st1, insertEntry subs subscription_id subscription), .ok subscription)

/-- `WebSocketClient::attempt_connect`: the mock connection always succeeds;
set `Connected` and record the ping instant. `reconnect_attempts` is not
touched here (contrast `connect`). -/
def attempt_connect (st : ClientState) (now : Nat) :
    ClientState × Except HyperSimError Unit :=
  ({ st with connection_state := .Connected, last_ping := some now }, .ok ())

/-- `WebSocketClient::handle_reconnection`: when `reconnect_attempts` has
reached `max_reconnect_attempts`, fail with the fatal WebSocket error before
doing anything; otherwise mark `Reconnecting`, bump the counter, (sleep the
backoff delay, dropped) and attempt the reconnection. -/
def handle_reconnection (config : WebSocketClientConfig) (st : ClientState)
    (now : Nat) : ClientState × Except HyperSimError Unit :=
  if st.reconnect_attempts ≥ config.max_reconnect_attempts then
    (st, .error (.webSocket "Max reconnection attempts exceeded" none))
  else
    let st1 := { st with
      connection_state := .Reconnecting
      reconnect_attempts := st.reconnect_attempts + 1 }
    attempt_connect st1 now

/-! ## Claims about the caches -/

/-- C3 counterexample: with an entry for key "k" whose `expires_at` is 5,
at `now = 5` we have `now ≤ expires_at`, yet `get_cached_result` returns
`none` — the code's guard is strict (`expires_at > now`), so the claim's
"`Some(value)` iff an entry exists and `now <= expires_at`" is false at the
boundary instant. -/
theorem claim_C3_counterexample :
    lookupEntry [(("k" : String), ({ data := (42 : Nat), expires_at := 5 } : CacheEntry Nat))] "k" =
      some { data := 42, expires_at := 5 } ∧
    (5 : Nat) ≤ 5 ∧
    get_cached_result [(("k" : String), ({ data := (42 : Nat), expires_at := 5 } : CacheEntry Nat))] "k" 5 = none := by
  refine ⟨?_, le_refl 5, ?_⟩ <;> rfl

/-- C3 (amended): cache `get` returns `Some` iff an entry exists for the key
and `now < expires_at` (strictly); otherwise `None` — an entry that is
logically expired but still physically present is never returned. Both the
HyperEVM and the HyperCore variant. -/
theorem claim_C3_amended {K V : Type} [DecidableEq K]
    (cache : List (K × CacheEntry V)) (k : K) (now : Nat) :
    (∀ v : V, get_cached_result cache k now = some v ↔
      ∃ e, lookupEntry cache k = some e ∧ e.data = v ∧ now < e.expires_at) ∧
    (∀ e : CacheEntry V, get_cached_data cache k now = some e ↔
      lookupEntry cache k = some e ∧ now < e.expires_at) := by
  constructor
  · intro v
    unfold get_cached_result
    cases h : lookupEntry cache k with
    | none => simp
    | some a =>
      by_cases hlt : a.expires_at > now
      · simp [hlt]
      · simp [hlt]
  · intro e
    unfold get_cached_data
    cases h : lookupEntry cache k with
    | none => simp
    | some a =>
      by_cases hlt : a.expires_at > now
      · simp [hlt]
        intro hv
        subst hv
        omega
      · simp [hlt]
        intro hv
        subst hv
        omega

/-- Witness for C3 (amended) at a concrete unexpired entry. -/
theorem claim_C3_amended_witness :
    get_cached_result [(("k" : String), ({ data := (42 : Nat), expires_at := 5 } : CacheEntry Nat))] "k" 4 = some 42 ↔
      ∃ e, lookupEntry [(("k" : String), ({ data := (42 : Nat), expires_at := 5 } : CacheEntry Nat))] "k" = some e ∧
        e.data = 42 ∧ 4 < e.expires_at :=
  (claim_C3_amended _ _ _).1 42

/-- A 1000-entry cache, keys `0..999`, every entry expiring at instant 5
(used only to exercise the over-capacity sweep of `cache_result`). -/
def bigCache : List (Nat × CacheEntry Nat) :=
  (List.range 1000).map (fun i => (i, { data := 0, expires_at := 5 }))

/-- C4 counterexample: inserting a 1001st entry at `now = 5` (every entry,
the new one included, has `expires_at = 5`, so none satisfies the claim's
removal predicate `now > expires_at`) triggers the sweep, which nevertheless
removes every entry: the sweep's predicate is `now ≥ expires_at`, not
`now > expires_at`. -/
theorem claim_C4_counterexample :
    (insertEntry bigCache 1000 ({ data := 0, expires_at := 5 } : CacheEntry Nat)).length = 1001 ∧
    ¬ ((5 : Nat) > 5) ∧
    cache_result bigCache 1000 0 5 0 = [] := by
  have hfilter : bigCache.filter (fun kv => kv.1 ≠ 1000) = bigCache := by
    apply List.filter_eq_self.mpr
    intro kv hkv
    simp only [bigCache, List.mem_map, List.mem_range] at hkv
    obtain ⟨i, hi, rfl⟩ := hkv
    simp
    omega
  have hins : insertEntry bigCache 1000 ({ data := 0, expires_at := 5 } : CacheEntry Nat) =
      (1000, { data := 0, expires_at := 5 }) :: bigCache := by
    unfold insertEntry
    rw [hfilter]
  have hlen : ((1000, ({ data := 0, expires_at := 5 } : CacheEntry Nat)) :: bigCache).length = 1001 := by
    simp [bigCache]
  refine ⟨by rw [hins]; exact hlen, by omega, ?_⟩
  unfold cache_result
  simp only []
  rw [hins, if_pos (by rw [hlen]; omega)]
  apply List.filter_eq_nil_iff.mpr
  intro kv hkv
  rw [List.mem_cons] at hkv
  rcases hkv with rfl | hkv
  · simp
  · simp only [bigCache, List.mem_map, List.mem_range] at hkv
    obtain ⟨i, hi, rfl⟩ := hkv
    simp

/-- C4 (amended): whenever the insert pushes the map over 1000 entries, the
sweep removes exactly the entries with `now ≥ expires_at`: an inserted-map
entry survives iff either no sweep was triggered or its `expires_at` is
strictly in the future. -/
theorem claim_C4_amended {K V : Type} [DecidableEq K]
    (cache : List (K × CacheEntry V)) (key : K) (result : V) (now ttl : Nat)
    (kv : K × CacheEntry V)
    (hmem : kv ∈ insertEntry cache key { data := result, expires_at := now + ttl }) :
    kv ∈ cache_result cache key result now ttl ↔
      ((insertEntry cache key ({ data := result, expires_at := now + ttl } : CacheEntry V)).length ≤ 1000 ∨
        now < kv.2.expires_at) := by
  unfold cache_result
  simp only []
  by_cases hlen :
      (insertEntry cache key ({ data := result, expires_at := now + ttl } : CacheEntry V)).length > 1000
  · rw [if_pos hlen]
    simp [List.mem_filter, hmem]
    omega
  · rw [if_neg hlen]
    simp [hmem]
    omega

/-- Witness for C4 (amended): a single fresh entry in an otherwise empty
cache stays present (no sweep is triggered). -/
theorem claim_C4_amended_witness :
    ((0 : Nat), ({ data := 7, expires_at := 5 } : CacheEntry Nat)) ∈ cache_result [] 0 7 0 5 ↔
      ((insertEntry ([] : List (Nat × CacheEntry Nat)) 0 ({ data := 7, expires_at := 0 + 5 } : CacheEntry Nat)).length ≤ 1000 ∨
        (0 : Nat) < 5) :=
  claim_C4_amended [] 0 7 0 5 (0, { data := 7, expires_at := 5 }) (by simp [insertEntry])

/-! ## Claims about the plugin pipeline -/

/-- C1: loading plugins "a"/"b"/"c" with priorities `[30, 10, 20]` yields
execution order `["a", "b", "c"]` — the load order — whereas the spec's
stable sort by ascending priority requires `["b", "c", "a"]`
(priorities `[10, 20, 30]`): `update_execution_order`'s position closure is
literally `false` ("For now, just append"), so the priority argument is
ignored and every load appends. -/
theorem claim_C1_priority_ignored :
    codeExecutionOrder [("a", 30), ("b", 10), ("c", 20)] = ["a", "b", "c"] ∧
    specExecutionOrder [("a", 30), ("b", 10), ("c", 20)] = ["b", "c", "a"] ∧
    (["a", "b", "c"] : List String) ≠ ["b", "c", "a"] := by
  refine ⟨?_, ?_, ?_⟩ <;> decide

/-- Full characterization of the hook-executor loop: the invocation log
records one entry per execution-order name present in the plugin map (with
that hook's outcome), and the loop's own result is always `Ok(())`. -/
theorem run_hooks_eq (order : List String) (plugins : List (String × PluginObj))
    (hook : PluginObj → Except HyperSimError Unit) :
    run_hooks order plugins hook =
      (order.filterMap (fun n => (lookupEntry plugins n).map (fun p => (n, hook p))),
        .ok ()) := by
  induction order with
  | nil => simp [run_hooks]
  | cons hd tl ih =>
    cases h : lookupEntry plugins hd <;> simp [run_hooks, h, ih]

/-- C6: for every pipeline state and unit of work, each of
`execute_before_simulation`, `execute_after_simulation` and
`execute_on_error` (a) invokes the callback of every plugin of the execution
order present in the map — the invocation log is exactly the execution order
restricted to present plugins, whatever any individual callback returns, so
one failing callback never prevents later ones — and (b) itself returns
`Ok(())` to its caller. -/
theorem claim_C6_fault_isolation (st : PluginSystemState)
    (request : TransactionRequest) (result : SimulationResult)
    (e : HyperSimError) :
    execute_before_simulation st request =
      (st.execution_order.filterMap
        (fun n => (lookupEntry st.plugins n).map (fun p => (n, p.before_simulation request))),
        .ok ()) ∧
    execute_after_simulation st result =
      (st.execution_order.filterMap
        (fun n => (lookupEntry st.plugins n).map (fun p => (n, p.after_simulation result))),
        .ok ()) ∧
    execute_on_error st e =
      (st.execution_order.filterMap
        (fun n => (lookupEntry st.plugins n).map (fun p => (n, p.on_error e))),
        .ok ()) := by
  refine ⟨?_, ?_, ?_⟩ <;>
    simp [execute_before_simulation, execute_after_simulation, execute_on_error,
      run_hooks_eq]

/-- C7: for an enabled descriptor, a construction failure (unknown plugin
name) or an initialization failure aborts the load with a Plugin-class
error and leaves the pipeline state unmodified. (For the closed built-in
registry, initialization in fact never fails, so that branch of the
hypothesis is vacuous — construction failure is the only reachable case.) -/
theorem claim_C7_load_failure_aborts (st : PluginSystemState)
    (config : PluginConfig) (h1 : config.enabled = true)
    (h2 : (∃ e, create_plugin config.name = .error e) ∨
      (∃ p e, create_plugin config.name = .ok p ∧
        BuiltinPlugin.initConfig p config.config = .error e)) :
    (load_plugin st config).1 = st ∧
    ∃ e, (load_plugin st config).2 = .error e ∧ e.isPluginClass = true := by
  rcases h2 with ⟨e, he⟩ | ⟨p, e, hp, hi⟩
  · have hname : create_plugin config.name =
        .error (.plugin ("Unknown plugin: " ++ config.name) none) := by
      unfold create_plugin at he ⊢
      split at he
      · exact absurd he (by simp)
      · exact absurd he (by simp)
      · rfl
    unfold load_plugin
    rw [h1]
    simp [hname, HyperSimError.isPluginClass]
  · cases p <;> simp [BuiltinPlugin.initConfig] at hi

/-- Witness for C7: loading the enabled but unknown plugin "ghost" on an
empty pipeline fails with a Plugin-class error and leaves the state as it
was. -/
theorem claim_C7_witness :
    (load_plugin { plugins := [], execution_order := [] }
      { name := "ghost", version := none, enabled := true, config := [], priority := 100 }).1 =
      { plugins := [], execution_order := [] } ∧
    ∃ e, (load_plugin { plugins := [], execution_order := [] }
      { name := "ghost", version := none, enabled := true, config := [], priority := 100 }).2 =
        .error e ∧ e.isPluginClass = true :=
  claim_C7_load_failure_aborts _ _ rfl (Or.inl ⟨_, rfl⟩)

/-- C10: a disabled descriptor is skipped: `load_plugin` returns `Ok(())`
and the state is unchanged, whatever the descriptor's name — in particular a
disabled unknown plugin does not produce the "Unknown plugin" error, since
neither construction nor initialization is reached. -/
theorem claim_C10_disabled_skipped (st : PluginSystemState)
    (config : PluginConfig) (h : config.enabled = false) :
    load_plugin st config = (st, .ok ()) := by
  unfold load_plugin
  rw [h]
  simp

/-- Witness for C10: a disabled descriptor whose name "ghost" is not in the
known-plugin registry still loads as a successful no-op. -/
theorem claim_C10_witness :
    load_plugin { plugins := [], execution_order := [] }
      { name := "ghost", version := none, enabled := false, config := [], priority := 100 } =
      ({ plugins := [], execution_order := [] }, .ok ()) :=
  claim_C10_disabled_skipped _ _ rfl

/-! ## Claims about the WebSocket connection manager -/

theorem is_connected_iff (s : ConnectionState) :
    s.is_connected = true ↔ s = .Connected := by
  cases s <;> simp [ConnectionState.is_connected]

/-- C2 counterexample: with `max_reconnect_attempts = 3` and
`reconnect_attempts = 3` already made, `handle_reconnection` surfaces the
fatal "Max reconnection attempts exceeded" error but the connection state
stays `Reconnecting` — it does not transition to the claimed terminal
`Error` state (no code path ever assigns `ConnectionState::Error`). -/
theorem claim_C2_counterexample :
    (handle_reconnection { max_reconnect_attempts := 3 }
      (⟨.Reconnecting, none, 3, 0⟩ : ClientState) 0).2 =
      .error (.webSocket "Max reconnection attempts exceeded" none) ∧
    (handle_reconnection { max_reconnect_attempts := 3 }
      (⟨.Reconnecting, none, 3, 0⟩ : ClientState) 0).1.connection_state =
      ConnectionState.Reconnecting ∧
    ConnectionState.Reconnecting ≠ ConnectionState.Error := by
  refine ⟨rfl, rfl, by decide⟩

/-- C2 (amended): once `reconnect_attempts` has reached
`max_reconnect_attempts`, `handle_reconnection` fails with the fatal
WebSocket error before making any reconnection attempt and leaves the whole
client state (connection state included) unchanged; since the counter is
untouched, every later `handle_reconnection` call fails the same way — but
no transition into the `Error` state occurs. -/
theorem claim_C2_amended (config : WebSocketClientConfig) (st : ClientState)
    (now : Nat) (h : st.reconnect_attempts ≥ config.max_reconnect_attempts) :
    handle_reconnection config st now =
      (st, .error (.webSocket "Max reconnection attempts exceeded" none)) := by
  unfold handle_reconnection
  rw [if_pos h]

/-- Witness for C2 (amended) at `max_attempts = 3` with three attempts made. -/
theorem claim_C2_amended_witness :
    handle_reconnection { max_reconnect_attempts := 3 }
      (⟨.Reconnecting, none, 3, 0⟩ : ClientState) 1 =
      ((⟨.Reconnecting, none, 3, 0⟩ : ClientState),
        .error (.webSocket "Max reconnection attempts exceeded" none)) :=
  claim_C2_amended _ _ _ (by decide)

/-- C5 counterexample: a successful reconnection via `attempt_connect` with
2 attempts already made reaches `Connected` with `Ok(())` but leaves
`reconnect_attempts` at 2 — the claimed reset to zero happens only in
`connect`. -/
theorem claim_C5_counterexample :
    (attempt_connect (⟨.Reconnecting, none, 2, 0⟩ : ClientState) 7).2 = .ok () ∧
    (attempt_connect (⟨.Reconnecting, none, 2, 0⟩ : ClientState) 7).1.connection_state =
      ConnectionState.Connected ∧
    (attempt_connect (⟨.Reconnecting, none, 2, 0⟩ : ClientState) 7).1.reconnect_attempts = 2 ∧
    (2 : Nat) ≠ 0 := by
  refine ⟨rfl, rfl, rfl, by decide⟩

/-- C5 (amended): an initial `connect()` resets `reconnect_attempts` to zero
(and records the heartbeat instant), but a successful reconnection via
`attempt_connect` leaves the counter exactly as it was. -/
theorem claim_C5_amended (st : ClientState) (now : Nat) :
    (connect st now).2 = .ok () ∧
    (connect st now).1.connection_state = .Connected ∧
    (connect st now).1.reconnect_attempts = 0 ∧
    (connect st now).1.last_ping = some now ∧
    (attempt_connect st now).2 = .ok () ∧
    (attempt_connect st now).1.connection_state = .Connected ∧
    (attempt_connect st now).1.reconnect_attempts = st.reconnect_attempts :=
  ⟨rfl, rfl, rfl, rfl, rfl, rfl, rfl⟩

/-- C8: `subscribe` in any state other than `Connected` fails with the
"Not connected to WebSocket" error and changes neither the client state nor
the subscription registry; conversely any successful `subscribe` was made in
state `Connected`. -/
theorem claim_C8_subscribe_guard {P : Type} (st : ClientState)
    (subs : SubscriptionRegistry P) (t : SubscriptionType) (params : P)
    (now : Nat) :
    (st.connection_state ≠ .Connected →
      subscribe st subs t params now =
        ((st, subs), .error (.webSocket "Not connected to WebSocket" none))) ∧
    (∀ st' subs' r, subscribe st subs t params now = ((st', subs'), .ok r) →
      st.connection_state = .Connected) := by
  constructor
  · intro h
    unfold subscribe
    rw [if_pos (by simp [is_connected_iff]; exact h)]
  · intro st' subs' r hsub
    by_contra hne
    unfold subscribe at hsub
    rw [if_pos (by simp [is_connected_iff]; exact hne)] at hsub
    simp at hsub

/-- Witness for C8 in state `Disconnected`: the subscribe call fails with
the "not connected" error and registers nothing. -/
theorem claim_C8_witness :
    subscribe (⟨.Disconnected, none, 0, 0⟩ : ClientState)
      ([] : SubscriptionRegistry Unit) .NewHeads () 0 =
      (((⟨.Disconnected, none, 0, 0⟩ : ClientState), []),
        .error (.webSocket "Not connected to WebSocket" none)) :=
  (claim_C8_subscribe_guard _ _ _ _ _).1 (by decide)

/-- C9: `disconnect`, from any state and any registry contents, returns
successfully with the connection state `Disconnected` and an empty
subscription registry — every previously registered subscription is removed
unconditionally (no unsubscribe acknowledgement is involved). -/
theorem claim_C9_disconnect_clears {P : Type} (st : ClientState)
    (subs : SubscriptionRegistry P) :
    (disconnect st subs).1.1.connection_state = .Disconnected ∧
    (disconnect st subs).1.2 = ([] : SubscriptionRegistry P) ∧
    (disconnect st subs).2 = .ok () :=
  ⟨rfl, rfl, rfl⟩

end HyperSim
